import Mathlib

/-!  Shallow embedding of the car-dashboard rendering code
     (mjpc/dashboard_render.h, mjpc/dashboard_render.cc) and of the
     defensive scene-annotation code of the SimpleCar task
     (mjpc/tasks/simple_car/simple_car.cc).

     Conventions:
     * C++ doubles are modelled as rationals.
     * Angles are measured in units of pi radians, so -1/2 stands for
       -pi/2, 1/2 for pi/2 and 2 for 2*pi.
     * Screen points that the C++ computes as center + radius*(cos, sin)
       of an angle are recorded in polar form (center, radius, angle);
       the trigonometric evaluation and the final static_cast<int> of
       pixel coordinates are host-side and are kept symbolic, since no
       claim depends on them.
     * The per-frame velocity input of the telemetry sampler is the
       magnitude mju_norm3(qvel[0..2]) of the body velocity, an opaque
       host computation, passed in directly as a rational.
-/

/-- C++ `static_cast<int>` applied to a double: truncation toward zero
(floor for nonnegative arguments, ceiling for negative ones). -/
def c2i (q : ℚ) : ℤ := if q < 0 then -Int.floor (-q) else Int.floor q

/-- An RGBA color, components in [0,1] (mjr_rectangle arguments). -/
structure Color where
  r : ℚ
  g : ℚ
  b : ℚ
  a : ℚ
deriving DecidableEq, Repr

/-- Text content handed to mjr_text.  `intText n` records snprintf "%d" of n,
`floatText q` records snprintf "%.0f" of q (host-side formatting kept
symbolic), `fixedText` is a literal string. -/
inductive LabelText where
  | intText (n : ℤ)
  | floatText (q : ℚ)
  | fixedText (s : String)
deriving DecidableEq, Repr

/-- A screen position: either polar about a center (the C++ evaluates
center + radius*(cos angle, sin angle)) or a direct cartesian point. -/
inductive Pos where
  | polar (cx cy radius angle : ℚ)
  | cart (x y : ℚ)
deriving DecidableEq, Repr

/-- One host draw primitive: an mjr_rectangle call (small filled rect of
extent w×h anchored at a position) or an mjr_text call. -/
inductive DrawCall where
  | rect (p : Pos) (w h : ℚ) (c : Color)
  | text (t : LabelText) (p : Pos) (r g b : ℚ)
deriving DecidableEq, Repr

/-- dashboard_render.cc DrawArc (lines 79-98): 100 segments stepping the
angle range, one small square of side radius*0.05 per step, placed on the
circle of the given radius. -/
def DrawArc (cx cy radius a0 a1 : ℚ) (c : Color) : List DrawCall :=
  let angle_step := (a1 - a0) / 100
  let segment_length := radius * (1/20)
  (List.range 100).map fun i =>
    DrawCall.rect (.polar cx cy radius (a0 + i * angle_step)) segment_length segment_length c

/-- dashboard_render.cc DrawCircle (lines 101-119): full 2*pi sweep
(angle step 2*pi/100, i.e. 2/100 in units of pi). -/
def DrawCircle (cx cy radius : ℚ) (c : Color) : List DrawCall :=
  let angle_step := (2 : ℚ) / 100
  let segment_length := radius * (1/20)
  (List.range 100).map fun i =>
    DrawCall.rect (.polar cx cy radius (i * angle_step)) segment_length segment_length c

/-- dashboard_render.cc DrawFilledCircle (lines 122-131): concentric rings
from the outer radius inward in steps of 2; `rings = (int)(radius/2)`.
(The `if ring_radius < 0 break` of the source can never fire for
i < rings, and is rendered here as skipping the ring.) -/
def DrawFilledCircle (cx cy radius : ℚ) (c : Color) : List DrawCall :=
  let rings := (c2i (radius / 2)).toNat
  (List.range rings).flatMap fun i =>
    let ring_radius := radius - i * 2
    if ring_radius < 0 then [] else DrawCircle cx cy ring_radius c

/-- The clamp pattern used throughout dashboard_render.cc:
`if (v > hi) v = hi; else if (v < lo) v = lo;`. -/
def clampHiLo (v lo hi : ℚ) : ℚ :=
  if v > hi then hi else if v < lo then lo else v

/-- Speedometer tick angle (dashboard_render.cc line 249), in units of pi:
`start + (end - start) * i / (num_marks - 1)` with start = -pi/2,
end = pi/2, num_marks = 13. -/
def speedTickAngle (i : ℕ) : ℚ :=
  -(1/2) + ((1/2) - -(1/2)) * (i : ℚ) / 12

/-- Speedometer label guard (dashboard_render.cc line 263): a label is
drawn only when `i % 2 == 0`. -/
def speedTickHasLabel (i : ℕ) : Bool := i % 2 == 0

/-- Speedometer label value (dashboard_render.cc line 265):
`(int)(min_speed + (max_speed - min_speed) * i / (num_marks - 1))`. -/
def speedTickLabelValue (i : ℕ) : ℤ :=
  c2i (0 + (240 - 0) * (i : ℚ) / 12)

/-- Tachometer tick angle (dashboard_render.cc line 368): num_marks = 9. -/
def tachTickAngle (i : ℕ) : ℚ :=
  -(1/2) + ((1/2) - -(1/2)) * (i : ℚ) / 8

/-- Tachometer label guard: the label block (dashboard_render.cc lines
381-390) is inside the tick loop with no `i % 2` test — every tick is
labelled. -/
def tachTickHasLabel (_i : ℕ) : Bool := true

/-- Tachometer label value (dashboard_render.cc lines 383-384):
`(int)(min_rpm + (max_rpm - min_rpm) * i / (num_marks - 1))`, then the
formatted value is `rpm_value / 1000` (C integer division). -/
def tachTickLabelValue (i : ℕ) : ℤ :=
  c2i (0 + (8000 - 0) * (i : ℚ) / 8) / 1000

/-- Fuel-gauge tick angle (dashboard_render.cc line 481): inverted scale,
start = pi/2, end = -pi/2, num_marks = 11. -/
def fuelTickAngle (i : ℕ) : ℚ :=
  (1/2) + (-(1/2) - (1/2)) * (i : ℚ) / 10

/-- Fuel-gauge label guard (dashboard_render.cc line 495): `i % 2 == 0`. -/
def fuelTickHasLabel (i : ℕ) : Bool := i % 2 == 0

/-- Fuel-gauge label value (dashboard_render.cc line 497):
`(int)(100.0 - (clamped_fuel / 100.0) * i * 10.0)` — note it depends on
the currently displayed (clamped) fuel value. -/
def fuelTickLabelValue (clamped_fuel : ℚ) (i : ℕ) : ℤ :=
  c2i (100 - clamped_fuel / 100 * (i : ℚ) * 10)

/-- Speedometer needle angle (dashboard_render.cc lines 226-231 and 277):
clamp the speed into [0, 240], then
`start + (end - start) * (clamped / max)`, in units of pi. -/
def speedNeedleAngle (s : ℚ) : ℚ :=
  -(1/2) + ((1/2) - -(1/2)) * (clampHiLo s 0 240 / 240)

/-- Tachometer needle angle (dashboard_render.cc lines 345-350 and 394). -/
def rpmNeedleAngle (r : ℚ) : ℚ :=
  -(1/2) + ((1/2) - -(1/2)) * (clampHiLo r 0 8000 / 8000)

/-- Fuel-gauge needle angle (dashboard_render.cc lines 458-463 and 509):
`start + (end - start) * (1 - clamped / 100)` with start = pi/2,
end = -pi/2. -/
def fuelNeedleAngle (f : ℚ) : ℚ :=
  (1/2) + (-(1/2) - (1/2)) * (1 - clampHiLo f 0 100 / 100)

/-- A status-arc color zone. -/
inductive Zone where
  | green
  | yellow
  | red
deriving DecidableEq, Repr

/-- Severity order of zones: green is the calm zone, red the warning zone.
For the fuel gauge lower fuel is the more severe side. -/
def Zone.severity : Zone → ℕ
  | .green => 0
  | .yellow => 1
  | .red => 2

/-- The zone whose arc segment is terminated by the current value, i.e.
the branch taken by the status-arc code of Speedometer::render
(dashboard_render.cc lines 280-294): `clamped < 80` → green else
`clamped < 160` → yellow else red, after clamping into [0, 240]. -/
def speedTerminalZone (s : ℚ) : Zone :=
  let c := clampHiLo s 0 240
  if c < 80 then .green else if c < 160 then .yellow else .red

/-- Branch structure of the tachometer status arc (dashboard_render.cc
lines 397-411). -/
def rpmTerminalZone (r : ℚ) : Zone :=
  let c := clampHiLo r 0 8000
  if c < 4000 then .green else if c < 6000 then .yellow else .red

/-- Branch structure of the fuel-gauge status arc (dashboard_render.cc
lines 512-526): `clamped > 75` → green else `clamped > 25` → yellow else
red, after clamping into [0, 100]. -/
def fuelTerminalZone (f : ℚ) : Zone :=
  let c := clampHiLo f 0 100
  if c > 75 then .green else if c > 25 then .yellow else .red

/-- Speedometer widget (dashboard_render.h lines 46-56 with the base
DisplayElement fields of lines 24-43).  `mjr_context_` models whether the
stored rendering-context pointer is non-null.  `addr` is instrumentation:
the allocation id handed out by the controller when the widget was
constructed with `new`, used to express object identity. -/
structure Speedometer where
  x_ : ℚ
  y_ : ℚ
  width_ : ℚ
  height_ : ℚ
  mjr_context_ : Bool
  speed_ : ℚ
  addr : ℕ
deriving DecidableEq, Repr

/-- Tachometer widget (dashboard_render.h lines 59-69). -/
structure Tachometer where
  x_ : ℚ
  y_ : ℚ
  width_ : ℚ
  height_ : ℚ
  mjr_context_ : Bool
  rpm_ : ℚ
  addr : ℕ
deriving DecidableEq, Repr

/-- FuelGauge widget (dashboard_render.h lines 72-82). -/
structure FuelGauge where
  x_ : ℚ
  y_ : ℚ
  width_ : ℚ
  height_ : ℚ
  mjr_context_ : Bool
  fuel_level_ : ℚ
  addr : ℕ
deriving DecidableEq, Repr

/-- Speedometer::render (dashboard_render.cc lines 218-330).  Returns the
sequence of host draw calls; the method body writes no member, so the
widget state is unchanged (see `Speedometer.renderM`). -/
def Speedometer.render (w : Speedometer) : List DrawCall :=
  if !w.mjr_context_ then [] else
  let clamped_speed := clampHiLo w.speed_ 0 240
  let center_x := w.x_
  let center_y := w.y_
  let radius := w.width_
  let start_angle : ℚ := -(1/2)
  let end_angle : ℚ := 1/2
  let background :=
    DrawFilledCircle center_x center_y radius ⟨1/10, 1/10, 1/10, 1⟩
      ++ DrawCircle center_x center_y radius ⟨4/5, 4/5, 4/5, 1⟩
      ++ DrawCircle center_x center_y (radius - 5) ⟨1/5, 1/5, 1/5, 1⟩
  let scale := (List.range 13).flatMap fun i =>
    let angle := speedTickAngle i
    DrawCall.rect (.polar center_x center_y (radius - 10) angle) 3 3 ⟨1, 1, 1, 1⟩
      :: (if speedTickHasLabel i then
            [DrawCall.text (.intText (speedTickLabelValue i))
              (.polar center_x center_y (radius - 30) angle) 1 1 1]
          else [])
  let speed_angle := start_angle + (end_angle - start_angle) * (clamped_speed / 240)
  let arcs :=
    if clamped_speed < 80 then
      DrawArc center_x center_y (radius - 20) start_angle speed_angle ⟨0, 1, 0, 1⟩
    else
      DrawArc center_x center_y (radius - 20) start_angle
          (start_angle + (end_angle - start_angle) * (80 / 240)) ⟨0, 1, 0, 1⟩
        ++ (if clamped_speed < 160 then
              DrawArc center_x center_y (radius - 20)
                (start_angle + (end_angle - start_angle) * (80 / 240)) speed_angle ⟨1, 1, 0, 1⟩
            else
              DrawArc center_x center_y (radius - 20)
                  (start_angle + (end_angle - start_angle) * (80 / 240))
                  (start_angle + (end_angle - start_angle) * (160 / 240)) ⟨1, 1, 0, 1⟩
                ++ DrawArc center_x center_y (radius - 20)
                  (start_angle + (end_angle - start_angle) * (160 / 240)) speed_angle ⟨1, 0, 0, 1⟩)
  let needle := (List.range 20).map fun i =>
    let t := (i : ℚ) / 19
    DrawCall.rect (.polar center_x center_y (t * (radius - 40)) speed_angle) 5 5 ⟨1, 0, 0, 1⟩
  let hub :=
    DrawFilledCircle center_x center_y 15 ⟨0, 0, 0, 1⟩
      ++ DrawCircle center_x center_y 15 ⟨1, 1, 1, 1⟩
  let texts :=
    [DrawCall.text (.floatText clamped_speed) (.cart center_x (center_y + 5)) 1 1 1,
     DrawCall.text (.fixedText "km/h") (.cart center_x (center_y - 15)) (4/5) (4/5) (4/5),
     DrawCall.text (.fixedText "SPEED") (.cart center_x (center_y - radius - 10)) 1 1 1]
  background ++ scale ++ arcs ++ needle ++ hub ++ texts

/-- Tachometer::render (dashboard_render.cc lines 337-447). -/
def Tachometer.render (w : Tachometer) : List DrawCall :=
  if !w.mjr_context_ then [] else
  let clamped_rpm := clampHiLo w.rpm_ 0 8000
  let center_x := w.x_
  let center_y := w.y_
  let radius := w.width_
  let start_angle : ℚ := -(1/2)
  let end_angle : ℚ := 1/2
  let background :=
    DrawFilledCircle center_x center_y radius ⟨1/10, 1/10, 1/10, 1⟩
      ++ DrawCircle center_x center_y radius ⟨4/5, 4/5, 4/5, 1⟩
      ++ DrawCircle center_x center_y (radius - 5) ⟨1/5, 1/5, 1/5, 1⟩
  let scale := (List.range 9).flatMap fun i =>
    let angle := tachTickAngle i
    [DrawCall.rect (.polar center_x center_y (radius - 10) angle) 3 3 ⟨1, 1, 1, 1⟩,
     DrawCall.text (.intText (tachTickLabelValue i))
       (.polar center_x center_y (radius - 25) angle) 1 1 1]
  let rpm_angle := start_angle + (end_angle - start_angle) * (clamped_rpm / 8000)
  let arcs :=
    if clamped_rpm < 4000 then
      DrawArc center_x center_y (radius - 15) start_angle rpm_angle ⟨0, 1, 0, 1⟩
    else
      DrawArc center_x center_y (radius - 15) start_angle
          (start_angle + (end_angle - start_angle) * (4000 / 8000)) ⟨0, 1, 0, 1⟩
        ++ (if clamped_rpm < 6000 then
              DrawArc center_x center_y (radius - 15)
                (start_angle + (end_angle - start_angle) * (4000 / 8000)) rpm_angle ⟨1, 1, 0, 1⟩
            else
              DrawArc center_x center_y (radius - 15)
                  (start_angle + (end_angle - start_angle) * (4000 / 8000))
                  (start_angle + (end_angle - start_angle) * (6000 / 8000)) ⟨1, 1, 0, 1⟩
                ++ DrawArc center_x center_y (radius - 15)
                  (start_angle + (end_angle - start_angle) * (6000 / 8000)) rpm_angle ⟨1, 0, 0, 1⟩)
  let needle := (List.range 15).map fun i =>
    let t := (i : ℚ) / 14
    DrawCall.rect (.polar center_x center_y (t * (radius - 30)) rpm_angle) 4 4 ⟨1, 0, 0, 1⟩
  let hub :=
    DrawFilledCircle center_x center_y 10 ⟨0, 0, 0, 1⟩
      ++ DrawCircle center_x center_y 10 ⟨1, 1, 1, 1⟩
  let texts :=
    [DrawCall.text (.floatText (clamped_rpm / 1000)) (.cart center_x (center_y + 5)) 1 1 1,
     DrawCall.text (.fixedText "RPM") (.cart center_x (center_y - 15)) (4/5) (4/5) (4/5),
     DrawCall.text (.fixedText "TACH") (.cart center_x (center_y - radius - 10)) 1 1 1]
  background ++ scale ++ arcs ++ needle ++ hub ++ texts

/-- FuelGauge::render (dashboard_render.cc lines 454-562). -/
def FuelGauge.render (w : FuelGauge) : List DrawCall :=
  if !w.mjr_context_ then [] else
  let clamped_fuel := clampHiLo w.fuel_level_ 0 100
  let center_x := w.x_
  let center_y := w.y_
  let radius := w.width_
  let start_angle : ℚ := 1/2
  let end_angle : ℚ := -(1/2)
  let background :=
    DrawFilledCircle center_x center_y radius ⟨1/10, 1/10, 1/10, 1⟩
      ++ DrawCircle center_x center_y radius ⟨4/5, 4/5, 4/5, 1⟩
      ++ DrawCircle center_x center_y (radius - 5) ⟨1/5, 1/5, 1/5, 1⟩
  let scale := (List.range 11).flatMap fun i =>
    let angle := fuelTickAngle i
    DrawCall.rect (.polar center_x center_y (radius - 10) angle) 3 3 ⟨1, 1, 1, 1⟩
      :: (if fuelTickHasLabel i then
            [DrawCall.text (.intText (fuelTickLabelValue clamped_fuel i))
              (.polar center_x center_y (radius - 25) angle) 1 1 1]
          else [])
  let fuel_angle := start_angle + (end_angle - start_angle) * (1 - clamped_fuel / 100)
  let arcs :=
    if clamped_fuel > 75 then
      DrawArc center_x center_y (radius - 15) fuel_angle end_angle ⟨0, 1, 0, 1⟩
    else if clamped_fuel > 25 then
      let mid_angle := start_angle + (end_angle - start_angle) * (1/4)
      DrawArc center_x center_y (radius - 15) fuel_angle mid_angle ⟨1, 1, 0, 1⟩
        ++ DrawArc center_x center_y (radius - 15) mid_angle end_angle ⟨0, 1, 0, 1⟩
    else
      let mid_angle := start_angle + (end_angle - start_angle) * (1/4)
      let low_angle := start_angle + (end_angle - start_angle) * (3/4)
      DrawArc center_x center_y (radius - 15) fuel_angle low_angle ⟨1, 0, 0, 1⟩
        ++ DrawArc center_x center_y (radius - 15) low_angle mid_angle ⟨1, 1, 0, 1⟩
        ++ DrawArc center_x center_y (radius - 15) mid_angle end_angle ⟨0, 1, 0, 1⟩
  let needle := (List.range 15).map fun i =>
    let t := (i : ℚ) / 14
    DrawCall.rect (.polar center_x center_y (t * (radius - 30)) fuel_angle) 4 4 ⟨1, 0, 0, 1⟩
  let hub :=
    DrawFilledCircle center_x center_y 10 ⟨0, 0, 0, 1⟩
      ++ DrawCircle center_x center_y 10 ⟨1, 1, 1, 1⟩
  let texts :=
    [DrawCall.text (.floatText clamped_fuel) (.cart center_x (center_y + 5)) 1 1 1,
     DrawCall.text (.fixedText "%") (.cart center_x (center_y - 15)) (4/5) (4/5) (4/5),
     DrawCall.text (.fixedText "FUEL") (.cart center_x (center_y - radius - 10)) 1 1 1]
  background ++ scale ++ arcs ++ needle ++ hub ++ texts

/-- Speedometer::render as a state transformer: the C++ method body
contains no assignment to any member, so the post-state is the pre-state. -/
def Speedometer.renderM (w : Speedometer) : List DrawCall × Speedometer :=
  (w.render, w)

/-- Tachometer::render as a state transformer (no member is written). -/
def Tachometer.renderM (w : Tachometer) : List DrawCall × Tachometer :=
  (w.render, w)

/-- FuelGauge::render as a state transformer (no member is written). -/
def FuelGauge.renderM (w : FuelGauge) : List DrawCall × FuelGauge :=
  (w.render, w)

/-- DashboardData (dashboard_data.h, fields as used by
dashboard_render.cc): the telemetry snapshot. -/
structure DashboardData where
  speed : ℚ
  rpm : ℚ
  fuel_level : ℚ
deriving DecidableEq, Repr

/-- The pure data computation of Dashboard::UpdateData
(dashboard_render.cc lines 48-70): `speed_ms` is the host-computed
magnitude mju_norm3 of the first three generalized-velocity coordinates;
speed = speed_ms * 3.6; rpm = speed * 100 then clamped into [0, 8000];
fuel_level decremented by 0.001 and floored at 0. -/
def sampleStep (speed_ms : ℚ) (d : DashboardData) : DashboardData :=
  let speed := speed_ms * (18/5)
  let rpm0 := speed * 100
  let rpm := if rpm0 > 8000 then 8000 else if rpm0 < 0 then 0 else rpm0
  let fuel0 := d.fuel_level - 1/1000
  let fuel_level := if fuel0 < 0 then 0 else fuel0
  ⟨speed, rpm, fuel_level⟩

/-- The fuel-level transition of one sampler call (dashboard_render.cc
lines 66-70), in isolation. -/
def fuelStep (f : ℚ) : ℚ :=
  if f - 1/1000 < 0 then 0 else f - 1/1000

/-- Dashboard state (dashboard_render.h lines 85-111).  The widget
pointers are Options (nullptr = none); `mjr_context_` records whether the
stored context pointer is non-null; `allocCount` is instrumentation
counting `new` widget allocations, used to express the exactly-once
construction invariant and object identity. -/
structure Dashboard where
  data_ : DashboardData
  mjr_context_ : Bool
  speedometer_ : Option Speedometer
  tachometer_ : Option Tachometer
  fuel_gauge_ : Option FuelGauge
  allocCount : ℕ
deriving DecidableEq, Repr

/-- Dashboard::Dashboard (dashboard_render.cc lines 23-35): speed 0,
rpm 0, fuel 100, null context, null widget pointers. -/
def Dashboard.init : Dashboard :=
  ⟨⟨0, 0, 100⟩, false, none, none, none, 0⟩

/-- Dashboard::UpdateData (dashboard_render.cc lines 48-76) for an
available simulation state: recompute the snapshot via `sampleStep`, then
push each scalar into its widget when the widget exists (the
`if (speedometer_) ...` guards of lines 72-75). -/
def Dashboard.updateDataAvail (speed_ms : ℚ) (db : Dashboard) : Dashboard :=
  let d := sampleStep speed_ms db.data_
  { db with
    data_ := d
    speedometer_ := db.speedometer_.map fun w => { w with speed_ := d.speed }
    tachometer_ := db.tachometer_.map fun w => { w with rpm_ := d.rpm }
    fuel_gauge_ := db.fuel_gauge_.map fun w => { w with fuel_level_ := d.fuel_level } }

/-- Dashboard::UpdateData with the availability of the required
simulation state (the body's generalized-velocity coordinates) made
explicit.  The C++ body (dashboard_render.cc lines 48-76) reads
data->qvel[0..2] unconditionally — it contains no availability check —
so an unavailable state faults (`none`) instead of being skipped. -/
def Dashboard.UpdateData (qvelNorm : Option ℚ) (db : Dashboard) : Option Dashboard :=
  match qvelNorm with
  | none => none
  | some v => some (db.updateDataAvail v)

/-- Per-frame inputs of Dashboard::Render (dashboard_render.cc line 133):
the simulation state (as the sampled velocity magnitude), whether the
mjr_context argument is non-null, and the frame rectangle extent. -/
structure RenderInput where
  speed_ms : ℚ
  ctxAvail : Bool
  rectW : ℚ
  rectH : ℚ

/-- Dashboard::Render (dashboard_render.cc lines 133-215): update the
data, store the context, compute the screen layout, lazily construct the
three widgets on first use (else reposition them), then render each in
order.  Returns the emitted draw calls and the post-state.  (The source
constructs all three widgets together in the `!speedometer_` branch; the
`none` fallbacks for the other two in the else branch are unreachable.) -/
def Dashboard.Render (inp : RenderInput) (db : Dashboard) : List DrawCall × Dashboard :=
  let db1 := db.updateDataAvail inp.speed_ms
  let db2 := { db1 with mjr_context_ := inp.ctxAvail }
  let width := inp.rectW
  let height := inp.rectH
  let center_x := width / 2
  let center_y := height / 2 - 100
  let speedometer_radius : ℚ := 150
  let small_gauge_radius : ℚ := 80
  let speedometer_x := center_x
  let speedometer_y := center_y
  let tachometer_x := center_x - speedometer_radius - small_gauge_radius - 20
  let tachometer_y := center_y
  let fuel_gauge_x := center_x + speedometer_radius + small_gauge_radius + 20
  let fuel_gauge_y := center_y
  let db3 :=
    match db2.speedometer_ with
    | none =>
      { db2 with
        speedometer_ := some ⟨speedometer_x, speedometer_y, speedometer_radius,
          speedometer_radius, inp.ctxAvail, 0, db2.allocCount⟩
        tachometer_ := some ⟨tachometer_x, tachometer_y, small_gauge_radius,
          small_gauge_radius, inp.ctxAvail, 0, db2.allocCount + 1⟩
        fuel_gauge_ := some ⟨fuel_gauge_x, fuel_gauge_y, small_gauge_radius,
          small_gauge_radius, inp.ctxAvail, 0, db2.allocCount + 2⟩
        allocCount := db2.allocCount + 3 }
    | some s =>
      { db2 with
        speedometer_ := some { s with x_ := speedometer_x, y_ := speedometer_y }
        tachometer_ := db2.tachometer_.map fun t => { t with x_ := tachometer_x, y_ := tachometer_y }
        fuel_gauge_ := db2.fuel_gauge_.map fun f => { f with x_ := fuel_gauge_x, y_ := fuel_gauge_y } }
  let draws :=
    (match db3.speedometer_ with | some s => s.render | none => [])
      ++ (match db3.tachometer_ with | some t => t.render | none => [])
      ++ (match db3.fuel_gauge_ with | some f => f.render | none => [])
  (draws, db3)

/-- A sequence of Dashboard::Render calls, threading the controller
state. -/
def renderRun (inps : List RenderInput) (db : Dashboard) : Dashboard :=
  inps.foldl (fun a i => (Dashboard.Render i a).2) db

/-- The part of the simulation model that SimpleCar::ModifyScene
(simple_car.cc lines 75-112) consults: the result of
`mj_name2id(model, mjOBJ_BODY, "car")`, with a negative id modelled as
`none`. -/
structure CarModel where
  car_body : Option ℕ

/-- The part of mjData consulted by SimpleCar::ModifyScene: the body
positions `xpos` and the result of
`SensorByName(model, data, "car_velocity")` (null = none). -/
structure CarData where
  xpos : ℕ → ℚ × ℚ × ℚ
  car_velocity : Option (ℚ × ℚ × ℚ)

/-- A label geom added to the scene (simple_car.cc lines 97-111): text
size, position, rgba, and the velocity vector whose magnitude is
formatted into the label (snprintf of mju_norm3 is host-side and kept
symbolic). -/
structure CarGeom where
  size : ℚ
  pos : ℚ × ℚ × ℚ
  rgba : ℚ × ℚ × ℚ × ℚ
  labelVel : ℚ × ℚ × ℚ

/-- The mjvScene fields used by SimpleCar::ModifyScene; `ngeom` is the
length of `geoms`. -/
structure CarScene where
  maxgeom : ℕ
  geoms : List CarGeom

/-- SimpleCar::ModifyScene (simple_car.cc lines 75-112): defensively
early-return when the car body is not found or the named velocity sensor
is absent; otherwise append one label geom above the car if there is
room. -/
def SimpleCar.ModifyScene (model : CarModel) (data : CarData) (scene : CarScene) : CarScene :=
  match model.car_body with
  | none => scene
  | some car_body_id =>
    match data.car_velocity with
    | none => scene
    | some v =>
      if scene.geoms.length < scene.maxgeom then
        let p := data.xpos car_body_id
        { scene with
          geoms := scene.geoms ++ [⟨3/20, (p.1, p.2.1, p.2.2 + 1/5), (1, 1, 1, 1), v⟩] }
      else scene

/-- A sequence of successive telemetry-sampler calls
(Dashboard::UpdateData data computations), threading the snapshot. -/
def sampleRun (vs : List ℚ) (d : DashboardData) : DashboardData :=
  vs.foldl (fun a v => sampleStep v a) d

lemma clampHiLo_eq_min_max (v lo hi : ℚ) (h : lo ≤ hi) :
    clampHiLo v lo hi = min (max v lo) hi := by
  unfold clampHiLo
  rcases le_or_lt v hi with h1 | h1
  · rcases le_or_lt lo v with h2 | h2
    · rw [if_neg (by linarith), if_neg (by linarith), max_eq_left h2, min_eq_left h1]
    · rw [if_neg (by linarith), if_pos h2, max_eq_right h2.le, min_eq_left h]
  · rw [if_pos h1, max_eq_left (by linarith), min_eq_right (by linarith)]

lemma clampHiLo_mono (lo hi : ℚ) (h : lo ≤ hi) {a b : ℚ} (hab : a ≤ b) :
    clampHiLo a lo hi ≤ clampHiLo b lo hi := by
  rw [clampHiLo_eq_min_max _ _ _ h, clampHiLo_eq_min_max _ _ _ h]
  exact min_le_min (max_le_max hab le_rfl) le_rfl

lemma clampHiLo_of_hi_le {v hi : ℚ} (lo : ℚ) (h : hi ≤ v) (hlh : lo ≤ hi) :
    clampHiLo v lo hi = hi := by
  rw [clampHiLo_eq_min_max _ _ _ hlh, max_eq_left (le_trans hlh h), min_eq_right h]

lemma clampHiLo_of_le_lo {v lo : ℚ} (hi : ℚ) (h : v ≤ lo) (hlh : lo ≤ hi) :
    clampHiLo v lo hi = lo := by
  rw [clampHiLo_eq_min_max _ _ _ hlh, max_eq_right h, min_eq_left hlh]

lemma fuelStep_nonneg (f : ℚ) : 0 ≤ fuelStep f := by
  unfold fuelStep
  split_ifs with h
  · exact le_refl 0
  · linarith

lemma fuelStep_le (f : ℚ) (h : 0 ≤ f) : fuelStep f ≤ f := by
  unfold fuelStep
  split_ifs with h1
  · exact h
  · linarith

lemma sampleRun_fuel (vs : List ℚ) : ∀ d : DashboardData, 0 ≤ d.fuel_level →
    (sampleRun vs d).fuel_level ≤ d.fuel_level ∧ 0 ≤ (sampleRun vs d).fuel_level := by
  induction vs with
  | nil => exact fun d h => ⟨le_refl _, h⟩
  | cons v vs ih =>
    intro d h
    have h1 : (sampleStep v d).fuel_level = fuelStep d.fuel_level := rfl
    have h2 : 0 ≤ (sampleStep v d).fuel_level := by rw [h1]; exact fuelStep_nonneg _
    have h3 : (sampleStep v d).fuel_level ≤ d.fuel_level := by
      rw [h1]; exact fuelStep_le _ h
    have h4 := ih (sampleStep v d) h2
    have h5 : sampleRun (v :: vs) d = sampleRun vs (sampleStep v d) := rfl
    rw [h5]
    exact ⟨le_trans h4.1 h3, h4.2⟩

/-- C1.  The claim says Dashboard::UpdateData defensively checks for the
required simulation state and early-returns, leaving the snapshot
unchanged.  The code contains no such check: it reads data->qvel
unconditionally, so with the required state unavailable the update faults
(`none`) instead of returning the unchanged dashboard. -/
theorem c1_counterexample :
    Dashboard.UpdateData none Dashboard.init ≠ some Dashboard.init := by
  simp [Dashboard.UpdateData]

/-- C1 (amended).  Dashboard::UpdateData performs no defensive
availability check (an unavailable state faults rather than being
skipped); the defensive skip-if-absent pattern lives in the sibling
SimpleCar::ModifyScene, which early-returns with the scene unchanged when
the car body or the named velocity sensor is missing. -/
theorem c1_theorem :
    (∀ db : Dashboard, Dashboard.UpdateData none db = none)
    ∧ (∀ (m : CarModel) (d : CarData) (s : CarScene), m.car_body = none →
        SimpleCar.ModifyScene m d s = s)
    ∧ (∀ (m : CarModel) (d : CarData) (s : CarScene), d.car_velocity = none →
        SimpleCar.ModifyScene m d s = s) := by
  refine ⟨fun db => rfl, fun m d s h => ?_, fun m d s h => ?_⟩
  · simp [SimpleCar.ModifyScene, h]
  · cases hm : m.car_body with
    | none => simp [SimpleCar.ModifyScene, hm]
    | some i => simp [SimpleCar.ModifyScene, hm, h]

/-- Witness for C1 at concrete inputs: a missing car body and a missing
velocity sensor each leave a concrete scene unchanged, and the sampler
faults on an unavailable state. -/
theorem c1_witness :
    Dashboard.UpdateData none Dashboard.init = none
    ∧ SimpleCar.ModifyScene ⟨none⟩ ⟨fun _ => (0, 0, 0), some (1, 2, 3)⟩ ⟨5, []⟩ = ⟨5, []⟩
    ∧ SimpleCar.ModifyScene ⟨some 0⟩ ⟨fun _ => (0, 0, 0), none⟩ ⟨5, []⟩ = ⟨5, []⟩ :=
  ⟨c1_theorem.1 Dashboard.init, c1_theorem.2.1 _ _ _ rfl, c1_theorem.2.2 _ _ _ rfl⟩

/-- C2.  The claim puts the inverted fuel gauge's needle at +pi/2 for
value = min.  In the code the needle formula
`start + (end - start) * (1 - clamped/100)` re-inverts the inverted
scale: at fuel = 0 (the scale minimum) the needle angle is -pi/2
(-1/2 in units of pi), not +pi/2. -/
theorem c2_counterexample :
    fuelNeedleAngle 0 = -(1/2) ∧ ((-(1/2) : ℚ) ≠ 1/2) := by
  constructor
  · norm_num [fuelNeedleAngle, clampHiLo]
  · norm_num

/-- C2 (amended).  Each needle angle is the affine (hence continuous and
monotone non-decreasing) image of the clamped value over the scale range,
and for ALL THREE gauges — the fuel gauge included, because its needle
formula composes two inversions — value = min maps to -pi/2 and
value = max maps to +pi/2 (angles in units of pi). -/
theorem c2_theorem :
    (∀ s, speedNeedleAngle s = -(1/2) + clampHiLo s 0 240 / 240)
    ∧ (∀ a b, a ≤ b → speedNeedleAngle a ≤ speedNeedleAngle b)
    ∧ speedNeedleAngle 0 = -(1/2) ∧ speedNeedleAngle 240 = 1/2
    ∧ (∀ r, rpmNeedleAngle r = -(1/2) + clampHiLo r 0 8000 / 8000)
    ∧ (∀ a b, a ≤ b → rpmNeedleAngle a ≤ rpmNeedleAngle b)
    ∧ rpmNeedleAngle 0 = -(1/2) ∧ rpmNeedleAngle 8000 = 1/2
    ∧ (∀ f, fuelNeedleAngle f = -(1/2) + clampHiLo f 0 100 / 100)
    ∧ (∀ a b, a ≤ b → fuelNeedleAngle a ≤ fuelNeedleAngle b)
    ∧ fuelNeedleAngle 0 = -(1/2) ∧ fuelNeedleAngle 100 = 1/2 := by
  refine ⟨fun s => by unfold speedNeedleAngle; ring,
    fun a b hab => ?_,
    by norm_num [speedNeedleAngle, clampHiLo],
    by norm_num [speedNeedleAngle, clampHiLo],
    fun r => by unfold rpmNeedleAngle; ring,
    fun a b hab => ?_,
    by norm_num [rpmNeedleAngle, clampHiLo],
    by norm_num [rpmNeedleAngle, clampHiLo],
    fun f => by unfold fuelNeedleAngle; ring,
    fun a b hab => ?_,
    by norm_num [fuelNeedleAngle, clampHiLo],
    by norm_num [fuelNeedleAngle, clampHiLo]⟩
  · have := clampHiLo_mono 0 240 (by norm_num) hab
    unfold speedNeedleAngle
    linarith
  · have := clampHiLo_mono 0 8000 (by norm_num) hab
    unfold rpmNeedleAngle
    linarith
  · have := clampHiLo_mono 0 100 (by norm_num) hab
    unfold fuelNeedleAngle
    linarith

/-- Witness for C2 at concrete inputs: monotonicity of the speed and fuel
needle angles at 30 ≤ 50 and 10 ≤ 90. -/
theorem c2_witness :
    (30 : ℚ) ≤ 50 ∧ speedNeedleAngle 30 ≤ speedNeedleAngle 50
    ∧ (10 : ℚ) ≤ 90 ∧ fuelNeedleAngle 10 ≤ fuelNeedleAngle 90 := by
  obtain ⟨-, hs, -, -, -, -, -, -, -, hf, -, -⟩ := c2_theorem
  exact ⟨by norm_num, hs 30 50 (by norm_num), by norm_num, hf 10 90 (by norm_num)⟩

/-- C3.  A value lying exactly on a zone threshold belongs to the higher
(more severe) zone, because the branch comparisons are strict
(`clamped < threshold` for the speedometer and tachometer,
`clamped > threshold` for the inverted fuel gauge, where lower fuel is
the more severe side); values beyond min/max clamp rather than wrap. -/
theorem c3_theorem :
    speedTerminalZone (799/10) = .green
    ∧ speedTerminalZone 80 = .yellow
    ∧ speedTerminalZone 160 = .red
    ∧ rpmTerminalZone 4000 = .yellow
    ∧ rpmTerminalZone 6000 = .red
    ∧ fuelTerminalZone (751/10) = .green
    ∧ fuelTerminalZone 75 = .yellow
    ∧ fuelTerminalZone 25 = .red
    ∧ Zone.severity (speedTerminalZone (799/10)) < Zone.severity (speedTerminalZone 80)
    ∧ Zone.severity (fuelTerminalZone (751/10)) < Zone.severity (fuelTerminalZone 75)
    ∧ (∀ s, 240 ≤ s → speedTerminalZone s = speedTerminalZone 240)
    ∧ (∀ s, s ≤ 0 → speedTerminalZone s = speedTerminalZone 0)
    ∧ (∀ r, 8000 ≤ r → rpmTerminalZone r = rpmTerminalZone 8000)
    ∧ (∀ f, 100 ≤ f → fuelTerminalZone f = fuelTerminalZone 100)
    ∧ (∀ f, f ≤ 0 → fuelTerminalZone f = fuelTerminalZone 0) := by
  refine ⟨by norm_num [speedTerminalZone, clampHiLo],
    by norm_num [speedTerminalZone, clampHiLo],
    by norm_num [speedTerminalZone, clampHiLo],
    by norm_num [rpmTerminalZone, clampHiLo],
    by norm_num [rpmTerminalZone, clampHiLo],
    by norm_num [fuelTerminalZone, clampHiLo],
    by norm_num [fuelTerminalZone, clampHiLo],
    by norm_num [fuelTerminalZone, clampHiLo],
    by norm_num [speedTerminalZone, clampHiLo, Zone.severity],
    by norm_num [fuelTerminalZone, clampHiLo, Zone.severity],
    fun s h => ?_, fun s h => ?_, fun r h => ?_, fun f h => ?_, fun f h => ?_⟩
  · unfold speedTerminalZone
    rw [clampHiLo_of_hi_le 0 h (by norm_num), clampHiLo_of_hi_le 0 le_rfl (by norm_num)]
  · unfold speedTerminalZone
    rw [clampHiLo_of_le_lo 240 h (by norm_num), clampHiLo_of_le_lo 240 le_rfl (by norm_num)]
  · unfold rpmTerminalZone
    rw [clampHiLo_of_hi_le 0 h (by norm_num), clampHiLo_of_hi_le 0 le_rfl (by norm_num)]
  · unfold fuelTerminalZone
    rw [clampHiLo_of_hi_le 0 h (by norm_num), clampHiLo_of_hi_le 0 le_rfl (by norm_num)]
  · unfold fuelTerminalZone
    rw [clampHiLo_of_le_lo 100 h (by norm_num), clampHiLo_of_le_lo 100 le_rfl (by norm_num)]

/-- Witness for C3 at concrete inputs: a speed past the maximum and a fuel
level past the maximum clamp to the max-value zone. -/
theorem c3_witness :
    (240 : ℚ) ≤ 500 ∧ speedTerminalZone 500 = speedTerminalZone 240
    ∧ (100 : ℚ) ≤ 101 ∧ fuelTerminalZone 101 = fuelTerminalZone 100 := by
  obtain ⟨-, -, -, -, -, -, -, -, -, -, hs, -, -, hf, -⟩ := c3_theorem
  exact ⟨by norm_num, hs 500 (by norm_num), by norm_num, hf 101 (by norm_num)⟩

/-- C4.  Each sampler call sends the stored fuel level through
`fuelStep` (subtract the fixed decrement 0.001 and floor at 0), so across
every sequence of successive sampler calls started from a nonnegative
fuel level (the constructor sets 100) the fuel level is monotonically
non-increasing and never drops below 0. -/
theorem c4_theorem :
    (∀ v d, (sampleStep v d).fuel_level = fuelStep d.fuel_level)
    ∧ (∀ v d, 0 ≤ d.fuel_level →
        (sampleStep v d).fuel_level ≤ d.fuel_level ∧ 0 ≤ (sampleStep v d).fuel_level)
    ∧ (∀ vs d, 0 ≤ d.fuel_level →
        (sampleRun vs d).fuel_level ≤ d.fuel_level ∧ 0 ≤ (sampleRun vs d).fuel_level) := by
  refine ⟨fun v d => rfl, fun v d h => ?_, fun vs d h => sampleRun_fuel vs d h⟩
  have h1 : (sampleStep v d).fuel_level = fuelStep d.fuel_level := rfl
  rw [h1]
  exact ⟨fuelStep_le _ h, fuelStep_nonneg _⟩

/-- Witness for C4 at a concrete run: three sampler calls from the
constructor snapshot (fuel 100). -/
theorem c4_witness :
    (0 : ℚ) ≤ (⟨0, 0, 100⟩ : DashboardData).fuel_level
    ∧ (sampleRun [3, 7, 11] ⟨0, 0, 100⟩).fuel_level ≤ (⟨0, 0, 100⟩ : DashboardData).fuel_level
    ∧ 0 ≤ (sampleRun [3, 7, 11] ⟨0, 0, 100⟩).fuel_level := by
  have h := c4_theorem.2.2 [3, 7, 11] ⟨0, 0, 100⟩ (by norm_num)
  exact ⟨by norm_num, h.1, h.2⟩

/-- C5.  The sampler computes rpm = speed_kmh * 100 clamped to [0, 8000]
(speed_kmh = speed_ms * 3.6), a monotone non-decreasing function of the
sampled speed; and each gauge's clamp-if-chain equals
min(max(input, lo), hi) over its range. -/
theorem c5_theorem :
    (∀ v d, (sampleStep v d).rpm = min (max (v * (18/5) * 100) 0) 8000)
    ∧ (∀ v1 v2 d1 d2, v1 ≤ v2 → (sampleStep v1 d1).rpm ≤ (sampleStep v2 d2).rpm)
    ∧ (∀ s, clampHiLo s 0 240 = min (max s 0) 240)
    ∧ (∀ r, clampHiLo r 0 8000 = min (max r 0) 8000)
    ∧ (∀ f, clampHiLo f 0 100 = min (max f 0) 100) := by
  have key : ∀ v (d : DashboardData), (sampleStep v d).rpm = min (max (v * (18/5) * 100) 0) 8000 := by
    intro v d
    have h : (sampleStep v d).rpm = clampHiLo (v * (18/5) * 100) 0 8000 := rfl
    rw [h, clampHiLo_eq_min_max _ _ _ (by norm_num)]
  refine ⟨key, fun v1 v2 d1 d2 h => ?_,
    fun s => clampHiLo_eq_min_max _ _ _ (by norm_num),
    fun r => clampHiLo_eq_min_max _ _ _ (by norm_num),
    fun f => clampHiLo_eq_min_max _ _ _ (by norm_num)⟩
  rw [key v1 d1, key v2 d2]
  exact min_le_min (max_le_max (by linarith) le_rfl) le_rfl

/-- Witness for C5 at concrete inputs: rpm monotonicity at speeds 1 ≤ 2. -/
theorem c5_witness :
    (1 : ℚ) ≤ 2 ∧ (sampleStep 1 ⟨0, 0, 50⟩).rpm ≤ (sampleStep 2 ⟨0, 0, 50⟩).rpm :=
  ⟨by norm_num, c5_theorem.2.1 1 2 ⟨0, 0, 50⟩ ⟨0, 0, 50⟩ (by norm_num)⟩

lemma c2i_natCast (n : ℕ) : c2i (n : ℚ) = (n : ℤ) := by
  unfold c2i
  rw [if_neg (not_lt.mpr (by positivity)), Int.floor_natCast]

lemma render_first_call (j : RenderInput) (db : Dashboard) (hs : db.speedometer_ = none) :
    (Dashboard.Render j db).2.speedometer_
      = some ⟨j.rectW / 2, j.rectH / 2 - 100, 150, 150, j.ctxAvail, 0, db.allocCount⟩
    ∧ (Dashboard.Render j db).2.tachometer_
      = some ⟨j.rectW / 2 - 150 - 80 - 20, j.rectH / 2 - 100, 80, 80, j.ctxAvail, 0, db.allocCount + 1⟩
    ∧ (Dashboard.Render j db).2.fuel_gauge_
      = some ⟨j.rectW / 2 + 150 + 80 + 20, j.rectH / 2 - 100, 80, 80, j.ctxAvail, 0, db.allocCount + 2⟩
    ∧ (Dashboard.Render j db).2.allocCount = db.allocCount + 3 := by
  simp [Dashboard.Render, Dashboard.updateDataAvail, hs]

lemma render_step_built (db : Dashboard) (j : RenderInput) (s : Speedometer)
    (hs : db.speedometer_ = some s) :
    (Dashboard.Render j db).2.allocCount = db.allocCount
    ∧ (Dashboard.Render j db).2.speedometer_.map Speedometer.addr = some s.addr
    ∧ (Dashboard.Render j db).2.tachometer_.map Tachometer.addr
        = db.tachometer_.map Tachometer.addr
    ∧ (Dashboard.Render j db).2.fuel_gauge_.map FuelGauge.addr
        = db.fuel_gauge_.map FuelGauge.addr
    ∧ (Dashboard.Render j db).2.speedometer_.map (fun w => (w.x_, w.y_))
        = some (j.rectW / 2, j.rectH / 2 - 100)
    ∧ (Dashboard.Render j db).2.tachometer_.map (fun w => (w.x_, w.y_))
        = db.tachometer_.map (fun _ => (j.rectW / 2 - 150 - 80 - 20, j.rectH / 2 - 100))
    ∧ (Dashboard.Render j db).2.fuel_gauge_.map (fun w => (w.x_, w.y_))
        = db.fuel_gauge_.map (fun _ => (j.rectW / 2 + 150 + 80 + 20, j.rectH / 2 - 100)) := by
  cases ht : db.tachometer_ <;> cases hf : db.fuel_gauge_ <;>
    simp [Dashboard.Render, Dashboard.updateDataAvail, hs, ht, hf]

lemma renderRun_built (inps : List RenderInput) : ∀ db : Dashboard,
    db.allocCount = 3 →
    db.speedometer_.map Speedometer.addr = some 0 →
    db.tachometer_.map Tachometer.addr = some 1 →
    db.fuel_gauge_.map FuelGauge.addr = some 2 →
    (renderRun inps db).allocCount = 3
    ∧ (renderRun inps db).speedometer_.map Speedometer.addr = some 0
    ∧ (renderRun inps db).tachometer_.map Tachometer.addr = some 1
    ∧ (renderRun inps db).fuel_gauge_.map FuelGauge.addr = some 2 := by
  induction inps with
  | nil => exact fun db h1 h2 h3 h4 => ⟨h1, h2, h3, h4⟩
  | cons j js ih =>
    intro db h1 h2 h3 h4
    obtain ⟨s, hs, hsa⟩ : ∃ s, db.speedometer_ = some s ∧ s.addr = 0 := by
      cases hsp : db.speedometer_ with
      | none => rw [hsp] at h2; simp at h2
      | some s =>
        rw [hsp] at h2
        simp at h2
        exact ⟨s, rfl, h2⟩
    have hstep := render_step_built db j s hs
    have hrun : renderRun (j :: js) db = renderRun js ((Dashboard.Render j db).2) := rfl
    rw [hrun]
    exact ih _ (hstep.1.trans h1) (by rw [hstep.2.1, hsa])
      (hstep.2.2.1.trans h3) (hstep.2.2.2.1.trans h4)

/-- C6.  Gauge widgets are lazily constructed exactly once per controller
instance (on the first Render, at the computed positions, three
allocations total) and later Render calls only reposition the same
objects: the allocation counter does not move, each widget keeps its
allocation id (object identity), and the stored coordinates become the
layout of the new frame rectangle. -/
theorem c6_theorem :
    (∀ j : RenderInput,
      (Dashboard.Render j Dashboard.init).2.allocCount = 3
      ∧ (Dashboard.Render j Dashboard.init).2.speedometer_
          = some ⟨j.rectW / 2, j.rectH / 2 - 100, 150, 150, j.ctxAvail, 0, 0⟩
      ∧ (Dashboard.Render j Dashboard.init).2.tachometer_
          = some ⟨j.rectW / 2 - 150 - 80 - 20, j.rectH / 2 - 100, 80, 80, j.ctxAvail, 0, 1⟩
      ∧ (Dashboard.Render j Dashboard.init).2.fuel_gauge_
          = some ⟨j.rectW / 2 + 150 + 80 + 20, j.rectH / 2 - 100, 80, 80, j.ctxAvail, 0, 2⟩)
    ∧ (∀ (db : Dashboard) (j : RenderInput) (s : Speedometer), db.speedometer_ = some s →
        (Dashboard.Render j db).2.allocCount = db.allocCount
        ∧ (Dashboard.Render j db).2.speedometer_.map Speedometer.addr = some s.addr
        ∧ (Dashboard.Render j db).2.tachometer_.map Tachometer.addr
            = db.tachometer_.map Tachometer.addr
        ∧ (Dashboard.Render j db).2.fuel_gauge_.map FuelGauge.addr
            = db.fuel_gauge_.map FuelGauge.addr
        ∧ (Dashboard.Render j db).2.speedometer_.map (fun w => (w.x_, w.y_))
            = some (j.rectW / 2, j.rectH / 2 - 100)
        ∧ (Dashboard.Render j db).2.tachometer_.map (fun w => (w.x_, w.y_))
            = db.tachometer_.map (fun _ => (j.rectW / 2 - 150 - 80 - 20, j.rectH / 2 - 100))
        ∧ (Dashboard.Render j db).2.fuel_gauge_.map (fun w => (w.x_, w.y_))
            = db.fuel_gauge_.map (fun _ => (j.rectW / 2 + 150 + 80 + 20, j.rectH / 2 - 100)))
    ∧ (∀ (j : RenderInput) (js : List RenderInput),
        (renderRun (j :: js) Dashboard.init).allocCount = 3
        ∧ (renderRun (j :: js) Dashboard.init).speedometer_.map Speedometer.addr = some 0
        ∧ (renderRun (j :: js) Dashboard.init).tachometer_.map Tachometer.addr = some 1
        ∧ (renderRun (j :: js) Dashboard.init).fuel_gauge_.map FuelGauge.addr = some 2) := by
  have hinit : Dashboard.init.speedometer_ = none := rfl
  refine ⟨fun j => ?_, fun db j s hs => render_step_built db j s hs, fun j js => ?_⟩
  · have h := render_first_call j Dashboard.init hinit
    exact ⟨h.2.2.2, h.1, h.2.1, h.2.2.1⟩
  · have h := render_first_call j Dashboard.init hinit
    have hrun : renderRun (j :: js) Dashboard.init
        = renderRun js ((Dashboard.Render j Dashboard.init).2) := rfl
    rw [hrun]
    exact renderRun_built js _ h.2.2.2 (by rw [h.1]; rfl) (by rw [h.2.1]; rfl)
      (by rw [h.2.2.1]; rfl)

/-- Witness for C6: the spec's layout scenario — a first Render at frame
800×600 places the speedometer at (400, 200); resizing to 1000×800
relocates it to (500, 300) with the allocation counter unchanged and the
same allocation id (same object). -/
theorem c6_witness :
    ((Dashboard.Render ⟨1, true, 800, 600⟩ Dashboard.init).2.speedometer_.map
        (fun w => (w.x_, w.y_)) = some ((400 : ℚ), (200 : ℚ)))
    ∧ (Dashboard.Render ⟨2, true, 1000, 800⟩
        ((Dashboard.Render ⟨1, true, 800, 600⟩ Dashboard.init).2)).2.allocCount
      = ((Dashboard.Render ⟨1, true, 800, 600⟩ Dashboard.init).2).allocCount
    ∧ (Dashboard.Render ⟨2, true, 1000, 800⟩
        ((Dashboard.Render ⟨1, true, 800, 600⟩ Dashboard.init).2)).2.speedometer_.map
          Speedometer.addr = some 0
    ∧ (Dashboard.Render ⟨2, true, 1000, 800⟩
        ((Dashboard.Render ⟨1, true, 800, 600⟩ Dashboard.init).2)).2.speedometer_.map
          (fun w => (w.x_, w.y_)) = some ((500 : ℚ), (300 : ℚ)) := by
  have hs : ((Dashboard.Render ⟨1, true, 800, 600⟩ Dashboard.init).2).speedometer_
      = some ⟨400, 200, 150, 150, true, 0, 0⟩ := by
    have h := (c6_theorem.1 ⟨1, true, 800, 600⟩).2.1
    rw [h]
    norm_num
  have h2 := c6_theorem.2.1 _ ⟨2, true, 1000, 800⟩ _ hs
  refine ⟨?_, h2.1, ?_, ?_⟩
  · rw [hs]; norm_num
  · rw [h2.2.1]
  · rw [h2.2.2.2.2.1]; norm_num

/-- C7.  Each widget's render is read-only over its stored value and
idempotent: the method body writes no member, so rendering leaves the
widget state unchanged, and a second render without an intervening update
emits the identical draw-call sequence. -/
theorem c7_theorem :
    ∀ (s : Speedometer) (t : Tachometer) (f : FuelGauge),
      s.renderM.2 = s ∧ s.renderM.2.renderM.1 = s.renderM.1
      ∧ t.renderM.2 = t ∧ t.renderM.2.renderM.1 = t.renderM.1
      ∧ f.renderM.2 = f ∧ f.renderM.2.renderM.1 = f.renderM.1 :=
  fun _ _ _ => ⟨rfl, rfl, rfl, rfl, rfl, rfl⟩

/-- C8.  The claim says every gauge draws a numeric label (a fixed scale
value) only at every other tick.  The tachometer's tick loop has no
every-other-tick guard — tick index 1 (and every index) gets a label —
and the fuel gauge's label values are not fixed scale values: at tick 2
the label is 80 when the displayed fuel is 100 but 90 when it is 50. -/
theorem c8_counterexample :
    tachTickHasLabel 1 = true
    ∧ fuelTickLabelValue 100 2 = 80
    ∧ fuelTickLabelValue 50 2 = 90
    ∧ (80 : ℤ) ≠ 90 := by
  refine ⟨rfl, ?_, ?_, by decide⟩
  · norm_num [fuelTickLabelValue, c2i]
  · norm_num [fuelTickLabelValue, c2i]

/-- C8 (amended).  Each gauge places its numMarks tick marks evenly
spaced over its fixed semicircular angle range.  The speedometer and
fuel gauge draw a numeric label only at every other tick (even indices);
the tachometer draws a label at every tick.  The speedometer's and
tachometer's label values are fixed scale values (20·i km/h and i
thousand rpm), while the fuel gauge's label values depend on the
currently displayed fuel level. -/
theorem c8_theorem :
    (∀ i : ℕ, speedTickAngle (i + 1) - speedTickAngle i = 1/12)
    ∧ speedTickAngle 0 = -(1/2) ∧ speedTickAngle 12 = 1/2
    ∧ (∀ i : ℕ, tachTickAngle (i + 1) - tachTickAngle i = 1/8)
    ∧ tachTickAngle 0 = -(1/2) ∧ tachTickAngle 8 = 1/2
    ∧ (∀ i : ℕ, fuelTickAngle (i + 1) - fuelTickAngle i = -(1/10))
    ∧ fuelTickAngle 0 = 1/2 ∧ fuelTickAngle 10 = -(1/2)
    ∧ (∀ i : ℕ, speedTickHasLabel i = true ↔ i % 2 = 0)
    ∧ (∀ i : ℕ, tachTickHasLabel i = true)
    ∧ (∀ i : ℕ, fuelTickHasLabel i = true ↔ i % 2 = 0)
    ∧ (∀ i : ℕ, speedTickLabelValue i = 20 * (i : ℤ))
    ∧ (∀ i : ℕ, tachTickLabelValue i = (i : ℤ))
    ∧ fuelTickLabelValue 100 2 ≠ fuelTickLabelValue 50 2 := by
  refine ⟨fun i => ?_, by norm_num [speedTickAngle], by norm_num [speedTickAngle],
    fun i => ?_, by norm_num [tachTickAngle], by norm_num [tachTickAngle],
    fun i => ?_, by norm_num [fuelTickAngle], by norm_num [fuelTickAngle],
    fun i => by simp [speedTickHasLabel],
    fun i => rfl,
    fun i => by simp [fuelTickHasLabel],
    fun i => ?_, fun i => ?_, ?_⟩
  · unfold speedTickAngle; push_cast; ring
  · unfold tachTickAngle; push_cast; ring
  · unfold fuelTickAngle; push_cast; ring
  · have harg : (0 : ℚ) + (240 - 0) * (i : ℚ) / 12 = ((20 * i : ℕ) : ℚ) := by
      push_cast; ring
    rw [speedTickLabelValue, harg, c2i_natCast]
    push_cast; ring
  · have harg : (0 : ℚ) + (8000 - 0) * (i : ℚ) / 8 = ((1000 * i : ℕ) : ℚ) := by
      push_cast; ring
    rw [tachTickLabelValue, harg, c2i_natCast]
    push_cast
    rw [mul_comm]
    exact Int.mul_ediv_cancel _ (by norm_num)
  · norm_num [fuelTickLabelValue, c2i]

lemma speedometer_render_noctx (w : Speedometer) (h : w.mjr_context_ = false) :
    w.render = [] := by
  simp [Speedometer.render, h]

lemma tachometer_render_noctx (w : Tachometer) (h : w.mjr_context_ = false) :
    w.render = [] := by
  simp [Tachometer.render, h]

lemma fuelgauge_render_noctx (w : FuelGauge) (h : w.mjr_context_ = false) :
    w.render = [] := by
  simp [FuelGauge.render, h]

lemma speedometer_render_ne_nil (w : Speedometer) (h : w.mjr_context_ = true) :
    w.render ≠ [] := by
  intro hnil
  simp [Speedometer.render, h, List.append_eq_nil] at hnil

/-- C9.  The claim says every Dashboard::Render call made with an
unavailable (null) rendering context draws nothing.  But each widget's
guard tests the context pointer captured at the widget's construction,
not the one passed to the current call: after a first Render with an
available context, a second Render with a null context still issues draw
primitives. -/
theorem c9_counterexample :
    (Dashboard.Render ⟨5, false, 800, 600⟩
      ((Dashboard.Render ⟨5, true, 800, 600⟩ Dashboard.init).2)).1 ≠ [] := by
  have hs : ((Dashboard.Render ⟨5, true, 800, 600⟩ Dashboard.init).2).speedometer_
      = some ⟨400, 200, 150, 150, true, 0, 0⟩ := by
    norm_num [Dashboard.Render, Dashboard.updateDataAvail, Dashboard.init, sampleStep]
  intro h
  rw [show (Dashboard.Render ⟨5, false, 800, 600⟩
      ((Dashboard.Render ⟨5, true, 800, 600⟩ Dashboard.init).2)).1
    = (match ((Dashboard.Render ⟨5, false, 800, 600⟩
        ((Dashboard.Render ⟨5, true, 800, 600⟩ Dashboard.init).2)).2).speedometer_ with
        | some s => s.render | none => [])
      ++ (match ((Dashboard.Render ⟨5, false, 800, 600⟩
        ((Dashboard.Render ⟨5, true, 800, 600⟩ Dashboard.init).2)).2).tachometer_ with
        | some t => t.render | none => [])
      ++ (match ((Dashboard.Render ⟨5, false, 800, 600⟩
        ((Dashboard.Render ⟨5, true, 800, 600⟩ Dashboard.init).2)).2).fuel_gauge_ with
        | some f => f.render | none => []) from rfl] at h
  have hs2 : ((Dashboard.Render ⟨5, false, 800, 600⟩
      ((Dashboard.Render ⟨5, true, 800, 600⟩ Dashboard.init).2)).2).speedometer_
      = some ⟨400, 200, 150, 150, true, 18, 0⟩ := by
    norm_num [Dashboard.Render, Dashboard.updateDataAvail, Dashboard.init, sampleStep, hs]
  rw [hs2] at h
  have h1 := (List.append_eq_nil.mp (List.append_eq_nil.mp h).1).1
  exact speedometer_render_ne_nil _ rfl h1

/-- C9 (amended).  A widget's render is a no-op guarded by the single
null-context check at its top, testing the context captured when the
widget was constructed.  Hence whenever the widgets' stored contexts are
unavailable — in particular throughout any run in which every Render call
passed an unavailable context — a Render call with an unavailable context
issues no draw primitives while the telemetry snapshot is still updated.
A null context passed to a later call does not silence widgets that
captured a valid context at construction (see the counterexample). -/
theorem c9_theorem (db : Dashboard) (j : RenderInput)
    (hj : j.ctxAvail = false)
    (hs : ∀ s, db.speedometer_ = some s → s.mjr_context_ = false)
    (ht : ∀ t, db.tachometer_ = some t → t.mjr_context_ = false)
    (hf : ∀ f, db.fuel_gauge_ = some f → f.mjr_context_ = false) :
    (Dashboard.Render j db).1 = []
    ∧ (Dashboard.Render j db).2.data_ = sampleStep j.speed_ms db.data_ := by
  constructor
  · cases hsp : db.speedometer_ with
    | none =>
      simp [Dashboard.Render, Dashboard.updateDataAvail, hsp, hj,
        Speedometer.render, Tachometer.render, FuelGauge.render]
    | some s =>
      have hsc := hs s hsp
      cases htp : db.tachometer_ with
      | none =>
        cases hfp : db.fuel_gauge_ with
        | none =>
          simp [Dashboard.Render, Dashboard.updateDataAvail, hsp, htp, hfp,
            Speedometer.render, hsc]
        | some f =>
          have hfc := hf f hfp
          simp [Dashboard.Render, Dashboard.updateDataAvail, hsp, htp, hfp,
            Speedometer.render, FuelGauge.render, hsc, hfc]
      | some t =>
        have htc := ht t htp
        cases hfp : db.fuel_gauge_ with
        | none =>
          simp [Dashboard.Render, Dashboard.updateDataAvail, hsp, htp, hfp,
            Speedometer.render, Tachometer.render, hsc, htc]
        | some f =>
          have hfc := hf f hfp
          simp [Dashboard.Render, Dashboard.updateDataAvail, hsp, htp, hfp,
            Speedometer.render, Tachometer.render, FuelGauge.render, hsc, htc, hfc]
  · cases hsp : db.speedometer_ <;>
      simp [Dashboard.Render, Dashboard.updateDataAvail, hsp]

/-- Witness for C9 at concrete inputs: the very first Render of a fresh
controller, called with an unavailable context, draws nothing and still
updates the snapshot. -/
theorem c9_witness :
    (Dashboard.Render ⟨2, false, 800, 600⟩ Dashboard.init).1 = []
    ∧ (Dashboard.Render ⟨2, false, 800, 600⟩ Dashboard.init).2.data_
      = sampleStep 2 Dashboard.init.data_ :=
  c9_theorem Dashboard.init ⟨2, false, 800, 600⟩ rfl
    (fun s h => by simp [Dashboard.init] at h)
    (fun t h => by simp [Dashboard.init] at h)
    (fun f h => by simp [Dashboard.init] at h)

/-- C10.  On the first Render of a controller's lifetime, the data pushes
of UpdateData are guarded by null widget pointers and run before the
widgets are constructed, so the three gauges render their
constructor-initialized value 0 — in particular the fuel gauge displays 0
while the snapshot's fuel level is 99.999 ≈ 100 — and the freshly sampled
values first reach the widgets on the second Render call. -/
theorem c10_theorem (v W H v2 W2 H2 : ℚ) :
    (Dashboard.Render ⟨v, true, W, H⟩ Dashboard.init).1
      = Speedometer.render ⟨W / 2, H / 2 - 100, 150, 150, true, 0, 0⟩
        ++ Tachometer.render ⟨W / 2 - 150 - 80 - 20, H / 2 - 100, 80, 80, true, 0, 1⟩
        ++ FuelGauge.render ⟨W / 2 + 150 + 80 + 20, H / 2 - 100, 80, 80, true, 0, 2⟩
    ∧ (Dashboard.Render ⟨v, true, W, H⟩ Dashboard.init).2.data_.fuel_level = 99999/1000
    ∧ (Dashboard.Render ⟨v2, true, W2, H2⟩
        (Dashboard.Render ⟨v, true, W, H⟩ Dashboard.init).2).1
      = Speedometer.render ⟨W2 / 2, H2 / 2 - 100, 150, 150, true,
          (sampleStep v2 (Dashboard.Render ⟨v, true, W, H⟩ Dashboard.init).2.data_).speed, 0⟩
        ++ Tachometer.render ⟨W2 / 2 - 150 - 80 - 20, H2 / 2 - 100, 80, 80, true,
          (sampleStep v2 (Dashboard.Render ⟨v, true, W, H⟩ Dashboard.init).2.data_).rpm, 1⟩
        ++ FuelGauge.render ⟨W2 / 2 + 150 + 80 + 20, H2 / 2 - 100, 80, 80, true,
          (sampleStep v2 (Dashboard.Render ⟨v, true, W, H⟩ Dashboard.init).2.data_).fuel_level, 2⟩
    ∧ (sampleStep v2 (Dashboard.Render ⟨v, true, W, H⟩ Dashboard.init).2.data_).fuel_level
        = 49999/500 := by
  refine ⟨rfl, ?_, rfl, ?_⟩
  · norm_num [Dashboard.Render, Dashboard.updateDataAvail, Dashboard.init, sampleStep]
  · norm_num [Dashboard.Render, Dashboard.updateDataAvail, Dashboard.init, sampleStep]
